import Mathlib

/-!
Verification of `dlt.train.FisherGANTrainer` (src/dlt/train/fishergan.py).

Shallow embedding: scalar tensor values are modelled as exact rationals
(one square root, the `ipm_denom` metric, lives in the reals); a batch of
critic outputs is a list of scalars; the opaque collaborators (generator
and discriminator networks, optimizers) are modelled by exactly the data
the trainer reads from or writes to them: the forward functions, the
per-parameter requires_grad flags, and a count of optimizer step calls
standing in for the opaque optimizer state.  The metrics dictionary is an
association list in insertion order.
-/

namespace PyDLT

/-- Batch mean of a list of scalar values: models `tensor.mean()`. -/
def mean (xs : List ℚ) : ℚ := xs.sum / (xs.length : ℚ)

/-- Mean of the elementwise squares: models `(tensor**2).mean()`. -/
def meanSq (xs : List ℚ) : ℚ := (xs.map fun x => x ^ 2).sum / (xs.length : ℚ)

/-- The scalar `torch.autograd.Variable` that holds the Lagrange multiplier:
tensor payload `data`, accumulated gradient `grad` (0 models a cleared or
fresh gradient), and the requires_grad flag. -/
structure AlphaVar where
  data : ℚ
  grad : ℚ
  requires_grad : Bool
deriving DecidableEq

/-- State of a `dlt.train.FisherGANTrainer` instance.  The fields
`d_iter`, `d_iter_counter`, `training`, the two loss-name registries,
`add_loss` and the module/optimizer handles come from the `GANBaseTrainer`
base class, which the concrete trainer inherits; `rho` and `alpha` are the
Fisher-specific fields set in `FisherGANTrainer.__init__`. -/
structure FisherGANTrainer where
  generator : List ℚ → List ℚ
  discriminator : List ℚ → List ℚ
  /-- requires_grad flags of the discriminator parameters. -/
  d_requires_grad : List Bool
  /-- requires_grad flags of the generator parameters. -/
  g_requires_grad : List Bool
  /-- Opaque discriminator optimizer state: number of step() calls. -/
  d_optimizer_steps : ℕ
  /-- Opaque generator optimizer state: number of step() calls. -/
  g_optimizer_steps : ℕ
  rho : ℚ
  d_iter : ℕ
  d_iter_counter : ℕ
  training : Bool
  losses_training : List String
  losses_validation : List String
  add_loss : Option (List ℚ → List ℚ → ℚ)
  alpha : Option AlphaVar

namespace FisherGANTrainer

/-- `FisherGANTrainer.__init__` (fishergan.py lines 36-44): registers the
loss names for the two modes, stores `rho`, and leaves the multiplier
absent.  The base-class `GANBaseTrainer.__init__` is not among these
sources; per the spec its state starts with `d_iter_counter = 0` and in
training mode. -/
def init (generator discriminator : List ℚ → List ℚ)
    (d_flags g_flags : List Bool) (rho : ℚ) (d_iter : ℕ)
    (add_loss : Option (List ℚ → List ℚ → ℚ)) : FisherGANTrainer where
  generator := generator
  discriminator := discriminator
  d_requires_grad := d_flags
  g_requires_grad := g_flags
  d_optimizer_steps := 0
  g_optimizer_steps := 0
  rho := rho
  d_iter := d_iter
  d_iter_counter := 0
  training := true
  losses_training := ["ipm_enum", "ipm_denom", "ipm_ratio", "d_loss", "constraint",
                      "epf", "eqf", "epf2", "eqf2", "lagrange"]
  losses_validation := ["g_loss"]
  add_loss := add_loss
  alpha := none

/-- Generator prediction inside the discriminator step (lines 53-58):
the forward pass runs in a no-gradient context (or with a volatile input
on old torch versions) and is detached via `.data`, so only its value is
visible; both branches produce the same value. -/
def d_prediction (tr : FisherGANTrainer) (g_input : List ℚ) : List ℚ :=
  tr.generator g_input

/-- `vphi_fake = self.discriminator(prediction)` (line 59). -/
def d_vphi_fake (tr : FisherGANTrainer) (g_input : List ℚ) : List ℚ :=
  tr.discriminator (tr.d_prediction g_input)

/-- `vphi_real = self.discriminator(Variable(real_input))` (line 60). -/
def d_vphi_real (tr : FisherGANTrainer) (real_input : List ℚ) : List ℚ :=
  tr.discriminator real_input

/-- `epf = vphi_real.mean()` (line 62). -/
def d_epf (tr : FisherGANTrainer) (real_input : List ℚ) : ℚ :=
  mean (tr.d_vphi_real real_input)

/-- `eqf = vphi_fake.mean()` (line 62). -/
def d_eqf (tr : FisherGANTrainer) (g_input : List ℚ) : ℚ :=
  mean (tr.d_vphi_fake g_input)

/-- `epf2 = (vphi_real**2).mean()` (line 63). -/
def d_epf2 (tr : FisherGANTrainer) (real_input : List ℚ) : ℚ :=
  meanSq (tr.d_vphi_real real_input)

/-- `eqf2 = (vphi_fake**2).mean()` (line 63). -/
def d_eqf2 (tr : FisherGANTrainer) (g_input : List ℚ) : ℚ :=
  meanSq (tr.d_vphi_fake g_input)

/-- `constraint = (1 - (0.5*epf2 + 0.5*eqf2))` (line 64). -/
def d_constraint (tr : FisherGANTrainer) (g_input real_input : List ℚ) : ℚ :=
  1 - (0.5 * tr.d_epf2 real_input + 0.5 * tr.d_eqf2 g_input)

/-- The multiplier Variable entering the loss computation (lines 50-51):
lazily created as `Variable(g_input.new([0]), requires_grad=True)` when
absent, with a fresh (zero) gradient accumulator. -/
def d_alpha0 (tr : FisherGANTrainer) : AlphaVar :=
  tr.alpha.getD ⟨0, 0, true⟩

/-- `d_loss = -(epf - eqf + self.alpha*constraint - self.rho/2 * constraint**2)`
(line 65), before the optional extra loss term. -/
def d_loss0 (tr : FisherGANTrainer) (g_input real_input : List ℚ) : ℚ :=
  -(tr.d_epf real_input - tr.d_eqf g_input
    + (tr.d_alpha0).data * tr.d_constraint g_input real_input
    - tr.rho / 2 * (tr.d_constraint g_input real_input) ^ 2)

/-- The optional extra loss term (lines 67-68): `self.add_loss(prediction,
Variable(real_input))` when configured, otherwise nothing is added. -/
def d_extra (tr : FisherGANTrainer) (g_input real_input : List ℚ) : ℚ :=
  match tr.add_loss with
  | none => 0
  | some f => f (tr.d_prediction g_input) real_input

/-- The discriminator loss that is backpropagated and reported (lines 65-68). -/
def d_loss (tr : FisherGANTrainer) (g_input real_input : List ℚ) : ℚ :=
  tr.d_loss0 g_input real_input + tr.d_extra g_input real_input

/-- The accumulated multiplier gradient after `d_loss.backward()` (line 70):
`d_loss` is affine in the multiplier with slope `-constraint` (the extra
loss term does not depend on the multiplier; see `deriv_d_loss_fn`), and
backward adds this derivative to the stored gradient. -/
def d_alpha_grad (tr : FisherGANTrainer) (g_input real_input : List ℚ) : ℚ :=
  (tr.d_alpha0).grad + -(tr.d_constraint g_input real_input)

/-- The multiplier after the dual-ascent update
`self.alpha.data += self.rho * self.alpha.grad.data` and the gradient
clear `self.alpha.grad.data.zero_()` (lines 72-73). -/
def d_alpha1 (tr : FisherGANTrainer) (g_input real_input : List ℚ) : AlphaVar :=
  ⟨(tr.d_alpha0).data + tr.rho * tr.d_alpha_grad g_input real_input, 0,
   (tr.d_alpha0).requires_grad⟩

/-- `ipm_enum = epf - eqf` (line 76), on the detached scalar values. -/
def d_ipm_enum (tr : FisherGANTrainer) (g_input real_input : List ℚ) : ℚ :=
  tr.d_epf real_input - tr.d_eqf g_input

/-- `ipm_denom = (0.5*epf2 + 0.5*eqf2)**0.5` (line 77). -/
noncomputable def d_ipm_denom (tr : FisherGANTrainer) (g_input real_input : List ℚ) : ℝ :=
  Real.sqrt ((0.5 * tr.d_epf2 real_input + 0.5 * tr.d_eqf2 g_input : ℚ) : ℝ)

/-- `ipm_ratio = ipm_enum/ipm_denom` (line 78): the division is unguarded. -/
noncomputable def d_ipm_ratio (tr : FisherGANTrainer) (g_input real_input : List ℚ) : ℝ :=
  ((tr.d_ipm_enum g_input real_input : ℚ) : ℝ) / tr.d_ipm_denom g_input real_input

/-- The metrics dictionary built by `d_step` (lines 79-87), in insertion
order.  Scalar extraction (`_get_scalar_value`) is the identity on the
modelled scalars; the reported `d_loss` is the negated stored loss, the
reported `constraint` is `1 - constraint`, and `lagrange` reads the
multiplier after the dual-ascent update. -/
noncomputable def d_metrics (tr : FisherGANTrainer) (g_input real_input : List ℚ) :
    List (String × ℝ) :=
  [("ipm_enum", ((tr.d_ipm_enum g_input real_input : ℚ) : ℝ)),
   ("ipm_denom", tr.d_ipm_denom g_input real_input),
   ("ipm_ratio", tr.d_ipm_ratio g_input real_input),
   ("d_loss", ((-(tr.d_loss g_input real_input) : ℚ) : ℝ)),
   ("constraint", ((1 - tr.d_constraint g_input real_input : ℚ) : ℝ)),
   ("epf", ((tr.d_epf real_input : ℚ) : ℝ)),
   ("eqf", ((tr.d_eqf g_input : ℚ) : ℝ)),
   ("epf2", ((tr.d_epf2 real_input : ℚ) : ℝ)),
   ("eqf2", ((tr.d_eqf2 g_input : ℚ) : ℝ)),
   ("lagrange", (((tr.d_alpha1 g_input real_input).data : ℚ) : ℝ))]

/-- `FisherGANTrainer.d_step` (lines 46-89): turns on the discriminator
parameter flags, lazily creates the multiplier, computes the augmented
Lagrangian loss, backpropagates, steps the discriminator optimizer,
performs dual ascent on the multiplier and clears its gradient, bumps the
step counter, and returns the detached prediction with the metrics. -/
noncomputable def d_step (tr : FisherGANTrainer) (g_input real_input : List ℚ) :
    FisherGANTrainer × List ℚ × List (String × ℝ) :=
  ({ tr with
      d_requires_grad := tr.d_requires_grad.map fun _ => true
      d_optimizer_steps := tr.d_optimizer_steps + 1
      alpha := some (tr.d_alpha1 g_input real_input)
      d_iter_counter := tr.d_iter_counter + 1 },
   tr.d_prediction g_input,
   tr.d_metrics g_input real_input)

/-- `error = - self.discriminator(prediction).mean()` (lines 97, 104, 107):
the generator loss, identical in value in the training and the two
evaluation branches. -/
def g_error (tr : FisherGANTrainer) (g_input : List ℚ) : ℚ :=
  -(mean (tr.discriminator (tr.generator g_input)))

/-- `FisherGANTrainer.g_step` (lines 91-108): turns off the discriminator
parameter flags; in training mode it backpropagates the generator loss and
steps the generator optimizer, in evaluation mode it computes the same
value without gradients; either way it returns the prediction and the
single `g_loss` metric. -/
def g_step (tr : FisherGANTrainer) (g_input : List ℚ) :
    FisherGANTrainer × List ℚ × List (String × ℝ) :=
  ({ tr with
      d_requires_grad := tr.d_requires_grad.map fun _ => false
      g_optimizer_steps := tr.g_optimizer_steps + (if tr.training then 1 else 0) },
   tr.generator g_input,
   [("g_loss", ((tr.g_error g_input : ℚ) : ℝ))])

/-- Modelled from the spec: the step dispatch of the `GANBaseTrainer` base
class is not among these sources.  Per the spec, `run_step` executes a
discriminator step when `d_iter_counter mod d_iter_target` is nonzero or
on the first call (equivalently `d_iter_counter = 0`, since only
discriminator steps advance the counter and the first call runs one), and
a generator step otherwise. -/
noncomputable def run_step (tr : FisherGANTrainer) (g_input real_input : List ℚ) :
    FisherGANTrainer × List ℚ × List (String × ℝ) :=
  if tr.d_iter_counter % tr.d_iter ≠ 0 ∨ tr.d_iter_counter = 0 then
    tr.d_step g_input real_input
  else
    tr.g_step g_input

/-- The backpropagated discriminator loss as a real function of the
multiplier value, everything else held fixed: this is the function whose
derivative at the current multiplier the backward pass of line 70
accumulates into the multiplier gradient. -/
noncomputable def d_loss_fn (tr : FisherGANTrainer) (g_input real_input : List ℚ) :
    ℝ → ℝ :=
  fun a =>
    -(((tr.d_epf real_input : ℚ) : ℝ) - ((tr.d_eqf g_input : ℚ) : ℝ)
      + a * ((tr.d_constraint g_input real_input : ℚ) : ℝ)
      - ((tr.rho : ℚ) : ℝ) / 2 * ((tr.d_constraint g_input real_input : ℚ) : ℝ) ^ 2)
    + ((tr.d_extra g_input real_input : ℚ) : ℝ)

/-- Sanity of the modelling: evaluated at the multiplier value that enters
the step, the loss function of the multiplier gives exactly the
backpropagated loss. -/
theorem d_loss_fn_at_alpha (tr : FisherGANTrainer) (g_input real_input : List ℚ) :
    tr.d_loss_fn g_input real_input (((tr.d_alpha0).data : ℚ) : ℝ)
      = ((tr.d_loss g_input real_input : ℚ) : ℝ) := by
  simp only [d_loss_fn, d_loss, d_loss0]
  push_cast
  ring

/-- The derivative of the discriminator loss with respect to the
multiplier is `-constraint`, at every point: the loss is affine in the
multiplier and the extra loss term does not depend on it. -/
theorem deriv_d_loss_fn (tr : FisherGANTrainer) (g_input real_input : List ℚ) (a : ℝ) :
    deriv (tr.d_loss_fn g_input real_input) a
      = -((tr.d_constraint g_input real_input : ℚ) : ℝ) := by
  have h : tr.d_loss_fn g_input real_input = fun x : ℝ =>
      (-((tr.d_constraint g_input real_input : ℚ) : ℝ)) * x +
        (-(((tr.d_epf real_input : ℚ) : ℝ) - ((tr.d_eqf g_input : ℚ) : ℝ)
            - ((tr.rho : ℚ) : ℝ) / 2
              * ((tr.d_constraint g_input real_input : ℚ) : ℝ) ^ 2)
          + ((tr.d_extra g_input real_input : ℚ) : ℝ)) := by
    funext x
    simp [d_loss_fn]
    ring
  rw [h]
  have h2 := ((hasDerivAt_id a).const_mul
      (-((tr.d_constraint g_input real_input : ℚ) : ℝ))).add_const
      (-(((tr.d_epf real_input : ℚ) : ℝ) - ((tr.d_eqf g_input : ℚ) : ℝ)
          - ((tr.rho : ℚ) : ℝ) / 2
            * ((tr.d_constraint g_input real_input : ℚ) : ℝ) ^ 2)
        + ((tr.d_extra g_input real_input : ℚ) : ℝ))
  simpa using h2.deriv

end FisherGANTrainer

open FisherGANTrainer

/-- A concrete trainer for witnesses: identity generator and discriminator
on singleton batches, one parameter each, penalty 1, one discriminator
step per generator step, no extra loss. -/
def sampleTrainer : FisherGANTrainer :=
  FisherGANTrainer.init id id [true] [true] 1 1 none

/-- C1: on a discriminator step with no extra loss configured, the
internally computed discriminator loss is
`-(epf - eqf + alpha*constraint - rho/2*constraint^2)` with `epf`, `eqf`
the batch means of the critic outputs on the real batch and on the
generator prediction, `constraint = 1 - (0.5*epf2 + 0.5*eqf2)` for the
batch means of the squares, and `alpha` the multiplier value entering the
step; the metric reported under the key `d_loss` is the negation of this
internal loss. -/
theorem claim_C1_d_loss_formula (tr : FisherGANTrainer) (g_input real_input : List ℚ)
    (h : tr.add_loss = none) :
    tr.d_loss g_input real_input =
      -(mean (tr.discriminator real_input) - mean (tr.discriminator (tr.generator g_input))
        + (tr.d_alpha0).data
          * (1 - (0.5 * meanSq (tr.discriminator real_input)
                  + 0.5 * meanSq (tr.discriminator (tr.generator g_input))))
        - tr.rho / 2
          * (1 - (0.5 * meanSq (tr.discriminator real_input)
                  + 0.5 * meanSq (tr.discriminator (tr.generator g_input)))) ^ 2) ∧
    List.lookup "d_loss" (tr.d_step g_input real_input).2.2
      = some ((-(tr.d_loss g_input real_input) : ℚ) : ℝ) := by
  constructor
  · simp [d_loss, d_loss0, d_extra, h, d_epf, d_eqf, d_epf2, d_eqf2,
          d_constraint, d_vphi_real, d_vphi_fake, d_prediction]
  · rfl

/-- Witness for C1 at the sample trainer on batches `[1]`, `[2]`: there
the critic outputs are `vphi_fake = [1]`, `vphi_real = [2]`, so
`epf = 2, eqf = 1, epf2 = 4, eqf2 = 1, constraint = -3/2` and the internal
loss is `1/8`. -/
theorem claim_C1_d_loss_formula_witness :
    sampleTrainer.add_loss = none ∧
    sampleTrainer.d_loss [1] [2] = 1 / 8 ∧
    List.lookup "d_loss" (sampleTrainer.d_step [1] [2]).2.2
      = some ((-(sampleTrainer.d_loss [1] [2]) : ℚ) : ℝ) :=
  ⟨rfl, by norm_num [sampleTrainer, init, d_loss, d_loss0, d_extra, d_alpha0, d_epf,
      d_eqf, d_epf2, d_eqf2, d_constraint, d_vphi_real, d_vphi_fake, d_prediction,
      mean, meanSq],
   (claim_C1_d_loss_formula sampleTrainer [1] [2] rfl).2⟩

/-- C4: every discriminator step returns a metrics map with exactly the
ten keys `ipm_enum, ipm_denom, ipm_ratio, d_loss, constraint, epf, eqf,
epf2, eqf2, lagrange` (in insertion order), and every generator step
returns a metrics map with exactly the key `g_loss`. -/
theorem claim_C4_metric_keys :
    (∀ (tr : FisherGANTrainer) (g_input real_input : List ℚ),
      (tr.d_step g_input real_input).2.2.map Prod.fst
        = ["ipm_enum", "ipm_denom", "ipm_ratio", "d_loss", "constraint",
           "epf", "eqf", "epf2", "eqf2", "lagrange"]) ∧
    (∀ (tr : FisherGANTrainer) (g_input : List ℚ),
      (tr.g_step g_input).2.2.map Prod.fst = ["g_loss"]) :=
  ⟨fun _ _ _ => rfl, fun _ _ => rfl⟩

/-- C8: the discriminator-step counter increments by exactly one per
discriminator step and is unchanged by a generator step; apart from the
counter, the multiplier, and the module/optimizer state (parameter flags
and optimizer step counts), no trainer field changes: the penalty, the
step target, the mode, the loss registries, the extra loss and the two
networks are all preserved by both steps, and the generator step also
leaves the multiplier untouched. -/
theorem claim_C8_counter_and_frame (tr : FisherGANTrainer) (g_input real_input : List ℚ) :
    ((tr.d_step g_input real_input).1.d_iter_counter = tr.d_iter_counter + 1 ∧
     (tr.g_step g_input).1.d_iter_counter = tr.d_iter_counter) ∧
    ((tr.d_step g_input real_input).1.rho = tr.rho ∧
     (tr.d_step g_input real_input).1.d_iter = tr.d_iter ∧
     (tr.d_step g_input real_input).1.training = tr.training ∧
     (tr.d_step g_input real_input).1.losses_training = tr.losses_training ∧
     (tr.d_step g_input real_input).1.losses_validation = tr.losses_validation ∧
     (tr.d_step g_input real_input).1.add_loss = tr.add_loss ∧
     (tr.d_step g_input real_input).1.generator = tr.generator ∧
     (tr.d_step g_input real_input).1.discriminator = tr.discriminator) ∧
    ((tr.g_step g_input).1.rho = tr.rho ∧
     (tr.g_step g_input).1.d_iter = tr.d_iter ∧
     (tr.g_step g_input).1.training = tr.training ∧
     (tr.g_step g_input).1.losses_training = tr.losses_training ∧
     (tr.g_step g_input).1.losses_validation = tr.losses_validation ∧
     (tr.g_step g_input).1.add_loss = tr.add_loss ∧
     (tr.g_step g_input).1.generator = tr.generator ∧
     (tr.g_step g_input).1.discriminator = tr.discriminator ∧
     (tr.g_step g_input).1.alpha = tr.alpha) :=
  ⟨⟨rfl, rfl⟩, ⟨rfl, rfl, rfl, rfl, rfl, rfl, rfl, rfl⟩,
   ⟨rfl, rfl, rfl, rfl, rfl, rfl, rfl, rfl, rfl⟩⟩

/-- C2: every discriminator step, in training and in evaluation mode
alike, updates the multiplier exactly once by the dual-ascent rule
`alpha := alpha + rho * d(d_loss)/d(alpha)` (the derivative the backward
pass deposits in the multiplier gradient, its accumulator being clear on
entry), and clears the accumulated multiplier gradient before returning;
the update is insensitive to the mode flag. -/
theorem claim_C2_dual_ascent (tr : FisherGANTrainer) (g_input real_input : List ℚ)
    (h : (tr.d_alpha0).grad = 0) :
    (tr.d_step g_input real_input).1.alpha = some (tr.d_alpha1 g_input real_input) ∧
    (((tr.d_alpha1 g_input real_input).data : ℚ) : ℝ)
      = (((tr.d_alpha0).data : ℚ) : ℝ)
        + ((tr.rho : ℚ) : ℝ)
          * deriv (tr.d_loss_fn g_input real_input) (((tr.d_alpha0).data : ℚ) : ℝ) ∧
    (tr.d_alpha1 g_input real_input).grad = 0 ∧
    (∀ b : Bool,
      (({ tr with training := b } : FisherGANTrainer).d_step g_input real_input).1.alpha
        = (tr.d_step g_input real_input).1.alpha) := by
  refine ⟨rfl, ?_, rfl, fun b => rfl⟩
  rw [deriv_d_loss_fn]
  simp only [d_alpha1, d_alpha_grad, h]
  push_cast
  ring

/-- Witness for C2 at the sample trainer on batches `[1]`, `[2]`: the
multiplier enters absent (so with value 0 and a clear gradient), the
constraint residual is `-3/2`, and the dual-ascent update leaves `3/2`. -/
theorem claim_C2_dual_ascent_witness :
    ((sampleTrainer.d_step [1] [2]).1.alpha = some (sampleTrainer.d_alpha1 [1] [2]) ∧
     (((sampleTrainer.d_alpha1 [1] [2]).data : ℚ) : ℝ)
       = (((sampleTrainer.d_alpha0).data : ℚ) : ℝ)
         + ((sampleTrainer.rho : ℚ) : ℝ)
           * deriv (sampleTrainer.d_loss_fn [1] [2]) (((sampleTrainer.d_alpha0).data : ℚ) : ℝ) ∧
     (sampleTrainer.d_alpha1 [1] [2]).grad = 0 ∧
     (∀ b : Bool,
       (({ sampleTrainer with training := b } : FisherGANTrainer).d_step [1] [2]).1.alpha
         = (sampleTrainer.d_step [1] [2]).1.alpha)) ∧
    (sampleTrainer.d_alpha1 [1] [2]).data = 3 / 2 :=
  ⟨claim_C2_dual_ascent sampleTrainer [1] [2] rfl,
   by norm_num [sampleTrainer, init, d_alpha1, d_alpha_grad, d_alpha0, d_constraint,
       d_epf2, d_eqf2, d_vphi_real, d_vphi_fake, d_prediction, meanSq]⟩

/-- C3: the multiplier is absent at construction; the first discriminator
step lazily initializes it to 0 with gradient tracking enabled (not an
error: the step is total and always leaves a present multiplier), and on
every discriminator step a present multiplier is updated exactly once
from its entering value, never reset or re-initialized. -/
theorem claim_C3_alpha_lifecycle :
    (∀ gen disc dfl gfl rho d_iter al,
      (FisherGANTrainer.init gen disc dfl gfl rho d_iter al).alpha = none) ∧
    (∀ (tr : FisherGANTrainer) (g_input real_input : List ℚ), tr.alpha = none →
      tr.d_alpha0 = ⟨0, 0, true⟩ ∧
      (tr.d_step g_input real_input).1.alpha
        = some ⟨0 + tr.rho * (0 + -(tr.d_constraint g_input real_input)), 0, true⟩) ∧
    (∀ (tr : FisherGANTrainer) (g_input real_input : List ℚ) (v : AlphaVar),
      tr.alpha = some v →
      (tr.d_step g_input real_input).1.alpha
        = some ⟨v.data + tr.rho * (v.grad + -(tr.d_constraint g_input real_input)), 0,
                v.requires_grad⟩) ∧
    (∀ (tr : FisherGANTrainer) (g_input real_input : List ℚ),
      ((tr.d_step g_input real_input).1.alpha).isSome = true) := by
  refine ⟨fun _ _ _ _ _ _ _ => rfl, fun tr g r h => ?_, fun tr g r v h => ?_, fun _ _ _ => rfl⟩
  · constructor
    · simp [d_alpha0, h]
    · simp [d_step, d_alpha1, d_alpha_grad, d_alpha0, h]
  · simp [d_step, d_alpha1, d_alpha_grad, d_alpha0, h]

/-- Witness for C3: the sample trainer is built with the multiplier
absent, its first discriminator step creates and updates it, and a
trainer holding the multiplier value 1 updates it from that value. -/
theorem claim_C3_alpha_lifecycle_witness :
    sampleTrainer.alpha = none ∧
    ((sampleTrainer.d_step [1] [2]).1.alpha
      = some ⟨0 + sampleTrainer.rho * (0 + -(sampleTrainer.d_constraint [1] [2])), 0, true⟩) ∧
    ((({ sampleTrainer with alpha := some ⟨1, 0, true⟩ } : FisherGANTrainer).d_step [1] [2]).1.alpha
      = some ⟨(1 : ℚ) + ({ sampleTrainer with alpha := some ⟨1, 0, true⟩ } :
            FisherGANTrainer).rho
          * ((0 : ℚ) + -(({ sampleTrainer with alpha := some ⟨1, 0, true⟩ } :
              FisherGANTrainer).d_constraint [1] [2])), 0, true⟩) :=
  ⟨rfl,
   (claim_C3_alpha_lifecycle.2.1 sampleTrainer [1] [2] rfl).2,
   claim_C3_alpha_lifecycle.2.2.1
     ({ sampleTrainer with alpha := some ⟨1, 0, true⟩ }) [1] [2] ⟨1, 0, true⟩ rfl⟩

/-- C10: the metric reported under the key `lagrange` is the multiplier
value after the dual-ascent update of the same step, so (the gradient
accumulator being clear on entry, the penalty nonzero) it differs from
the multiplier value that entered the loss whenever the constraint
residual is nonzero. -/
theorem claim_C10_lagrange_post_update (tr : FisherGANTrainer)
    (g_input real_input : List ℚ) (h : (tr.d_alpha0).grad = 0) :
    List.lookup "lagrange" (tr.d_step g_input real_input).2.2
      = some (((tr.d_alpha1 g_input real_input).data : ℚ) : ℝ) ∧
    (tr.d_alpha1 g_input real_input).data
      = (tr.d_alpha0).data + tr.rho * -(tr.d_constraint g_input real_input) ∧
    (tr.rho ≠ 0 → tr.d_constraint g_input real_input ≠ 0 →
      (tr.d_alpha1 g_input real_input).data ≠ (tr.d_alpha0).data) := by
  refine ⟨rfl, ?_, ?_⟩
  · simp [d_alpha1, d_alpha_grad, h]
  · intro hrho hc
    simp only [d_alpha1, d_alpha_grad, h, zero_add]
    intro heq
    have : tr.rho * -(tr.d_constraint g_input real_input) = 0 := by linarith
    rcases mul_eq_zero.mp this with h1 | h1
    · exact hrho h1
    · exact hc (neg_eq_zero.mp h1)

/-- Witness for C10 at the sample trainer on batches `[1]`, `[2]`: the
constraint residual is `-3/2` and the penalty is 1, so the reported
`lagrange` value `3/2` differs from the entering multiplier value 0. -/
theorem claim_C10_lagrange_post_update_witness :
    (List.lookup "lagrange" (sampleTrainer.d_step [1] [2]).2.2
      = some (((sampleTrainer.d_alpha1 [1] [2]).data : ℚ) : ℝ)) ∧
    (sampleTrainer.d_alpha1 [1] [2]).data ≠ (sampleTrainer.d_alpha0).data :=
  ⟨(claim_C10_lagrange_post_update sampleTrainer [1] [2] rfl).1,
   (claim_C10_lagrange_post_update sampleTrainer [1] [2] rfl).2.2 (by norm_num [sampleTrainer, init])
     (by norm_num [sampleTrainer, init, d_constraint, d_epf2, d_eqf2, d_vphi_real,
         d_vphi_fake, d_prediction, meanSq])⟩

/-- A trainer whose discriminator outputs 0 on every batch, giving a zero
`ipm_denom`. -/
def zeroTrainer : FisherGANTrainer :=
  { sampleTrainer with discriminator := fun _ => [0] }

/-- C6: for every discriminator step, the reported `ipm_ratio` is exactly
the reported `ipm_enum = epf - eqf` divided by the reported
`ipm_denom = sqrt(0.5*epf2 + 0.5*eqf2)`; the division is unguarded, and
when the denominator is zero the step still returns an `ipm_ratio` value
(no error is raised). -/
theorem claim_C6_ipm_ratio_division (tr : FisherGANTrainer) (g_input real_input : List ℚ) :
    List.lookup "ipm_enum" (tr.d_step g_input real_input).2.2
      = some ((tr.d_ipm_enum g_input real_input : ℚ) : ℝ) ∧
    List.lookup "ipm_denom" (tr.d_step g_input real_input).2.2
      = some (tr.d_ipm_denom g_input real_input) ∧
    (0 < tr.d_ipm_denom g_input real_input →
      List.lookup "ipm_ratio" (tr.d_step g_input real_input).2.2
        = some (((tr.d_ipm_enum g_input real_input : ℚ) : ℝ)
                  / tr.d_ipm_denom g_input real_input)) ∧
    (tr.d_ipm_denom g_input real_input = 0 →
      (List.lookup "ipm_ratio" (tr.d_step g_input real_input).2.2).isSome = true) :=
  ⟨rfl, rfl, fun _ => rfl, fun _ => rfl⟩

/-- Witness for C6: at the sample trainer the denominator is
`sqrt(5/2) > 0` and the ratio identity holds; at the zero-discriminator
trainer the denominator is zero and the step still reports a ratio. -/
theorem claim_C6_ipm_ratio_division_witness :
    (0 < sampleTrainer.d_ipm_denom [1] [2] ∧
     List.lookup "ipm_ratio" (sampleTrainer.d_step [1] [2]).2.2
       = some (((sampleTrainer.d_ipm_enum [1] [2] : ℚ) : ℝ)
                 / sampleTrainer.d_ipm_denom [1] [2])) ∧
    (zeroTrainer.d_ipm_denom [1] [2] = 0 ∧
     (List.lookup "ipm_ratio" (zeroTrainer.d_step [1] [2]).2.2).isSome = true) := by
  have h1 : 0 < sampleTrainer.d_ipm_denom [1] [2] := by
    have hv : ((0.5 * sampleTrainer.d_epf2 [2] + 0.5 * sampleTrainer.d_eqf2 [1] : ℚ) : ℝ)
        = 5 / 2 := by
      norm_num [sampleTrainer, init, d_epf2, d_eqf2, d_vphi_real, d_vphi_fake,
        d_prediction, meanSq]
    rw [d_ipm_denom, hv]
    exact Real.sqrt_pos.mpr (by norm_num)
  have h0 : zeroTrainer.d_ipm_denom [1] [2] = 0 := by
    have hv : ((0.5 * zeroTrainer.d_epf2 [2] + 0.5 * zeroTrainer.d_eqf2 [1] : ℚ) : ℝ)
        = 0 := by
      norm_num [zeroTrainer, sampleTrainer, init, d_epf2, d_eqf2, d_vphi_real,
        d_vphi_fake, d_prediction, meanSq]
    rw [d_ipm_denom, hv, Real.sqrt_zero]
  exact ⟨⟨h1, (claim_C6_ipm_ratio_division sampleTrainer [1] [2]).2.2.1 h1⟩,
         ⟨h0, (claim_C6_ipm_ratio_division zeroTrainer [1] [2]).2.2.2 h0⟩⟩

/-- C7 as stated fails: at the sample trainer on batches `[1]`, `[2]` the
value reported under `constraint` is `5/2` (it equals
`0.5*epf2 + 0.5*eqf2` with `epf2 = 4`, `eqf2 = 1`), and
`5/2 + (0.5*4 + 0.5*1) = 5`, not 1. -/
theorem claim_C7_counterexample :
    List.lookup "constraint" (sampleTrainer.d_step [1] [2]).2.2
      = some ((1 - sampleTrainer.d_constraint [1] [2] : ℚ) : ℝ) ∧
    (1 - sampleTrainer.d_constraint [1] [2] : ℚ) = 5 / 2 ∧
    sampleTrainer.d_epf2 [2] = 4 ∧
    sampleTrainer.d_eqf2 [1] = 1 ∧
    ((5 / 2 : ℝ) + (0.5 * 4 + 0.5 * 1) ≠ 1) := by
  refine ⟨rfl, ?_, ?_, ?_, by norm_num⟩
  · norm_num [sampleTrainer, init, d_constraint, d_epf2, d_eqf2, d_vphi_real,
      d_vphi_fake, d_prediction, meanSq]
  · norm_num [sampleTrainer, init, d_epf2, d_vphi_real, meanSq]
  · norm_num [sampleTrainer, init, d_eqf2, d_vphi_fake, d_prediction, meanSq]

/-- C7 amended: the value reported under `constraint` plus the internal
constraint residual `constraint = 1 - (0.5*epf2 + 0.5*eqf2)` sums to 1:
the reported value is `1 - constraint`, that is, `0.5*epf2 + 0.5*eqf2`
itself. -/
theorem claim_C7_constraint_report (tr : FisherGANTrainer) (g_input real_input : List ℚ) :
    List.lookup "constraint" (tr.d_step g_input real_input).2.2
      = some ((1 - tr.d_constraint g_input real_input : ℚ) : ℝ) ∧
    (1 - tr.d_constraint g_input real_input) + tr.d_constraint g_input real_input = 1 ∧
    1 - tr.d_constraint g_input real_input
      = 0.5 * tr.d_epf2 real_input + 0.5 * tr.d_eqf2 g_input := by
  refine ⟨rfl, by ring, ?_⟩
  rw [d_constraint]
  ring

/-- A trainer whose single generator parameter enters with its
requires_grad flag off. -/
def frozenGenTrainer : FisherGANTrainer :=
  { sampleTrainer with g_requires_grad := [false] }

/-- C9 as stated fails on its generator half: the generator step never
touches the generator parameter flags, so a generator parameter that
enters the step frozen is not made trainable by it (here the trainer is
even in training mode). -/
theorem claim_C9_counterexample :
    frozenGenTrainer.training = true ∧
    (frozenGenTrainer.g_step [1]).1.g_requires_grad = [false] ∧
    (frozenGenTrainer.g_step [1]).1.g_requires_grad.all (fun b => b) = false :=
  ⟨rfl, rfl, rfl⟩

/-- C9 amended: at the start of every discriminator step every
discriminator parameter flag is set to true while the generator is used
only through a detached, no-gradient forward pass (its parameter flags
and its optimizer state are untouched); at the start of every generator
step every discriminator parameter flag is set to false, the generator
parameter flags again being left unchanged (the trainer never toggles
them). -/
theorem claim_C9_requires_grad_toggling (tr : FisherGANTrainer)
    (g_input real_input : List ℚ) :
    ((tr.d_step g_input real_input).1.d_requires_grad.all (fun b => b) = true ∧
     (tr.d_step g_input real_input).1.g_requires_grad = tr.g_requires_grad ∧
     (tr.d_step g_input real_input).1.g_optimizer_steps = tr.g_optimizer_steps) ∧
    ((tr.g_step g_input).1.d_requires_grad.any (fun b => b) = false ∧
     (tr.g_step g_input).1.g_requires_grad = tr.g_requires_grad) := by
  refine ⟨⟨?_, rfl, rfl⟩, ⟨?_, rfl⟩⟩
  · simp [d_step]
  · simp [g_step]

/-- C5 as stated fails: after one fresh `run_step` (a discriminator step)
the sample trainer is still in training mode, with counter 1 and step
target 1, so the second `run_step` executes a generator step and returns
the single validation-registered key `g_loss`, not the ten names
registered for the training mode. -/
theorem claim_C5_counterexample :
    (sampleTrainer.run_step [1] [2]).1.training = true ∧
    ((sampleTrainer.run_step [1] [2]).1.run_step [1] [2]).2.2.map Prod.fst = ["g_loss"] ∧
    (sampleTrainer.run_step [1] [2]).1.losses_training ≠ ["g_loss"] := by
  refine ⟨rfl, rfl, ?_⟩
  simp [run_step, d_step, sampleTrainer, init]

/-- C5 amended: `run_step` returns exactly the metric names registered
for the kind of step it executed — the ten training-registered names when
it runs a discriminator step, the validation-registered `g_loss` when it
runs a generator step — irrespective of the current mode. -/
theorem claim_C5_keys_by_step_kind (tr : FisherGANTrainer) (g_input real_input : List ℚ)
    (ht : tr.losses_training
      = ["ipm_enum", "ipm_denom", "ipm_ratio", "d_loss", "constraint",
         "epf", "eqf", "epf2", "eqf2", "lagrange"])
    (hv : tr.losses_validation = ["g_loss"]) :
    (tr.run_step g_input real_input).2.2.map Prod.fst
      = if tr.d_iter_counter % tr.d_iter ≠ 0 ∨ tr.d_iter_counter = 0
        then tr.losses_training else tr.losses_validation := by
  by_cases hc : tr.d_iter_counter % tr.d_iter ≠ 0 ∨ tr.d_iter_counter = 0
  · rw [run_step, if_pos hc, if_pos hc, ht]
    rfl
  · rw [run_step, if_neg hc, if_neg hc, hv]
    rfl

/-- Witness for the amended C5 at the freshly constructed sample trainer
(whose registries are exactly the registered name lists). -/
theorem claim_C5_keys_by_step_kind_witness :
    (sampleTrainer.run_step [1] [2]).2.2.map Prod.fst
      = if sampleTrainer.d_iter_counter % sampleTrainer.d_iter ≠ 0
            ∨ sampleTrainer.d_iter_counter = 0
        then sampleTrainer.losses_training else sampleTrainer.losses_validation :=
  claim_C5_keys_by_step_kind sampleTrainer [1] [2] rfl rfl

end PyDLT
